import Mathlib

/-
Shallow embedding of the SPA null-sink node (src/null/null-sink.c and
src/null/null.h) and proofs about its control-plane and processing
operations. Machine integers are modelled as Nat with an explicit modulus
where the C type can wrap (the uint64 statistics counters); error returns
are modelled as the concrete negated errno values the C code returns.
-/

namespace NullSink

/-- Errno value EINVAL (invalid argument), from errno.h. -/
def EINVAL : Int := 22

/-- Errno value ENOENT (no such entry); null-sink uses it for unsupported
I/O area kinds (see the default branch of impl_node_set_io). -/
def ENOENT : Int := 2

/-- Errno value EIO_errno; null-sink uses it for Start without a configured
format. -/
def EIO_errno : Int := 5

/-- Errno value ENOTSUP (operation not supported). -/
def ENOTSUP : Int := 95

/-- SPA_STATUS_OK, the success status of the process callback. -/
def SPA_STATUS_OK : Int := 0

/-- SPA_ID_INVALID: the all-ones 32-bit sentinel marking an absent
buffer identifier. -/
def SPA_ID_INVALID : Nat := 4294967295

/-- MAX_BUFFERS from null.h: the size of the buffer queue array. -/
def MAX_BUFFERS : Nat := 16

/-- Identifier of the Format parameter (SPA_PARAM_Format). -/
def SPA_PARAM_Format : Nat := 4

/-- Identifier of the buffer-queue I/O area kind (SPA_IO_Buffers). -/
def SPA_IO_Buffers : Nat := 1

/-- Identifier of the rate-match I/O area kind (SPA_IO_RateMatch). -/
def SPA_IO_RateMatch : Nat := 8

/-- Command identifier SPA_NODE_COMMAND_Suspend. -/
def SPA_NODE_COMMAND_Suspend : Nat := 0

/-- Command identifier SPA_NODE_COMMAND_Pause. -/
def SPA_NODE_COMMAND_Pause : Nat := 1

/-- Command identifier SPA_NODE_COMMAND_Start. -/
def SPA_NODE_COMMAND_Start : Nat := 2

/-- SPA_MEDIA_TYPE_audio from the SPA media-type enum. -/
def SPA_MEDIA_TYPE_audio : Nat := 1

/-- SPA_MEDIA_SUBTYPE_raw from the SPA media-subtype enum. -/
def SPA_MEDIA_SUBTYPE_raw : Nat := 1

/-- Audio sample-encoding identifier for signed 16-bit samples. The
implementation never branches on the encoding value, so only the
distinctness of these identifiers matters. -/
def SPA_AUDIO_FORMAT_S16 : Nat := 259

/-- Audio sample-encoding identifier for interleaved 32-bit float. -/
def SPA_AUDIO_FORMAT_F32 : Nat := 283

/-- Audio sample-encoding identifier for planar 32-bit float, the
encoding advertised by the enumeration default. -/
def SPA_AUDIO_FORMAT_F32P : Nat := 522

/-- Modulus of the uint64 statistics counters. -/
def UINT64_MOD : Nat := 2 ^ 64

/-- Layout size of struct spa_io_buffers as used by impl_node_set_io
for its minimum-size check; the exact value does not influence any
property proved below. -/
def sizeof_spa_io_buffers : Nat := 136

/-- Layout size of struct spa_io_rate_match, used the same way. -/
def sizeof_spa_io_rate_match : Nat := 40

/-- The raw-audio part of struct spa_audio_info: sample encoding,
channel count and sample rate (the fields null-sink reads). -/
structure spa_audio_info_raw where
  format : Nat
  channels : Nat
  rate : Nat
deriving DecidableEq

/-- struct spa_audio_info: media type and subtype from spa_format_parse
plus the raw-audio details. -/
structure spa_audio_info where
  media_type : Nat
  media_subtype : Nat
  raw : spa_audio_info_raw
deriving DecidableEq

/-- The all-zero spa_audio_info produced by spa_zero when the format is
cleared. -/
def zero_audio_info : spa_audio_info :=
  { media_type := 0, media_subtype := 0, raw := { format := 0, channels := 0, rate := 0 } }

/-- struct spa_chunk: the size in bytes of the valid data in a buffer. -/
structure spa_chunk where
  size : Nat
deriving DecidableEq

/-- One spa_data entry of a buffer; the chunk pointer may be null. -/
structure spa_data where
  chunk : Option spa_chunk
deriving DecidableEq

/-- struct spa_buffer, reduced to the only element null-sink reads:
datas[0]. -/
structure spa_buffer where
  data0 : spa_data
deriving DecidableEq

/-- The buffer-queue I/O area: status, current buffer identifier, and
the MAX_BUFFERS-slot array of buffer pointers (a slot may be null). -/
structure spa_io_buffers where
  status : Int
  buffer_id : Nat
  buffers : List (Option spa_buffer)
deriving DecidableEq

/-- The rate-match I/O area; null-sink stores the pointer but never
reads or writes its fields. -/
structure spa_io_rate_match where
  rate_num : Nat
deriving DecidableEq

/-- struct null_state from null.h, reduced to the fields the five
operations below read or write: format configuration, the two I/O area
bindings (an Option models a possibly-null pointer, holding the
contents of the pointed-to area), the uint64 statistics counters and
the started flag. -/
structure null_state where
  have_format : Bool
  current_format : spa_audio_info
  io : Option spa_io_buffers
  rate_match : Option spa_io_rate_match
  frame_count : Nat
  buffer_count : Nat
  started : Bool
deriving DecidableEq

/-- impl_node_set_io from null-sink.c. The C function receives an
untyped pointer; here the argument is given in both typed views, and
the branch taken by the switch selects the relevant one. A pointer
smaller than the required layout clears the binding instead of storing
it; an unknown kind returns -ENOENT and changes nothing. -/
def impl_node_set_io (state : null_state) (id : Nat)
    (data_buffers : Option spa_io_buffers)
    (data_rate_match : Option spa_io_rate_match) (size : Nat) :
    Int × null_state :=
  if id = SPA_IO_Buffers then
    if size ≥ sizeof_spa_io_buffers then
      (0, { state with io := data_buffers })
    else
      (0, { state with io := none })
  else if id = SPA_IO_RateMatch then
    if size ≥ sizeof_spa_io_rate_match then
      (0, { state with rate_match := data_rate_match })
    else
      (0, { state with rate_match := none })
  else
    (-ENOENT, state)

/-- impl_node_send_command from null-sink.c, as a function of the
command identifier (SPA_NODE_COMMAND_ID of the command pod). -/
def impl_node_send_command (state : null_state) (command_id : Nat) :
    Int × null_state :=
  if command_id = SPA_NODE_COMMAND_Start then
    if state.have_format = false then
      (-EIO_errno, state)
    else
      (0, { state with started := true })
  else if command_id = SPA_NODE_COMMAND_Suspend ∨ command_id = SPA_NODE_COMMAND_Pause then
    (0, { state with started := false })
  else
    (-ENOTSUP, state)

/-- impl_node_set_param from null-sink.c. The pod argument is modelled
at the level of the parsed spa_audio_info it denotes (byte-level pod
parsing is outside the embedding); None is the null pod that clears the
format. The unused flags argument is omitted. -/
def impl_node_set_param (state : null_state) (id : Nat)
    (param : Option spa_audio_info) : Int × null_state :=
  if id = SPA_PARAM_Format then
    match param with
    | none =>
        (0, { state with have_format := false, current_format := zero_audio_info })
    | some info =>
        if info.media_type ≠ SPA_MEDIA_TYPE_audio ∨ info.media_subtype ≠ SPA_MEDIA_SUBTYPE_raw then
          (-EINVAL, state)
        else if info.raw.channels = 0 ∨ info.raw.channels > 64 then
          (-EINVAL, state)
        else if info.raw.rate = 0 ∨ info.raw.rate > 192000 then
          (-EINVAL, state)
        else
          (0, { state with current_format := info, have_format := true })
  else
    (-ENOTSUP, state)

/-- The single format descriptor built by impl_node_enum_params:
planar float, stereo, 48000 Hz. -/
def default_enum_format : spa_audio_info_raw :=
  { format := SPA_AUDIO_FORMAT_F32P, channels := 2, rate := 48000 }

/-- impl_node_enum_params from null-sink.c. The returned Int is the C
return value (the count, or a negative errno); the list holds the
descriptors emitted through the result callback; the returned state is
the node state after the call (the C function stores to no state
field). The seq argument only tags the asynchronous result and is
omitted. -/
def impl_node_enum_params (state : null_state) (id start num : Nat) :
    Int × List spa_audio_info_raw × null_state :=
  if num = 0 then
    (-EINVAL, [], state)
  else if id = SPA_PARAM_Format then
    if start = 0 ∧ 0 < num then
      (1, [default_enum_format], state)
    else
      (0, [], state)
  else
    (0, [], state)

/-- impl_node_process from null-sink.c. The frame computation divides
the chunk size by channels * 4: the C source hard-codes sizeof(float)
as the sample width. Counter updates reduce modulo 2^64 as the uint64
fields do. -/
def impl_node_process (state : null_state) : Int × null_state :=
  if !state.started || !state.have_format then
    (SPA_STATUS_OK, state)
  else
    match state.io with
    | none => (SPA_STATUS_OK, state)
    | some area =>
      if area.buffer_id = SPA_ID_INVALID then
        (SPA_STATUS_OK, state)
      else if area.buffer_id ≥ MAX_BUFFERS then
        (SPA_STATUS_OK, { state with io := some { area with buffer_id := SPA_ID_INVALID } })
      else
        match area.buffers.getD area.buffer_id none with
        | none =>
            (SPA_STATUS_OK, { state with io := some { area with buffer_id := SPA_ID_INVALID } })
        | some buf =>
          match buf.data0.chunk with
          | some chunk =>
              let frames := chunk.size / (state.current_format.raw.channels * 4)
              (SPA_STATUS_OK,
                { state with
                    frame_count := (state.frame_count + frames) % UINT64_MOD,
                    buffer_count := (state.buffer_count + 1) % UINT64_MOD,
                    io := some { area with buffer_id := SPA_ID_INVALID } })
          | none =>
              (SPA_STATUS_OK,
                { state with io := some { area with buffer_id := SPA_ID_INVALID } })

/-- Spec-side acceptance predicate for a format descriptor, following
the words of the specification: media kind is raw audio, channel count
in [1,64], sample rate in [1,192000]. Declared to be compared with the
acceptance behaviour of impl_node_set_param. -/
def spec_accepts_format (info : spa_audio_info) : Prop :=
  info.media_type = SPA_MEDIA_TYPE_audio ∧ info.media_subtype = SPA_MEDIA_SUBTYPE_raw ∧
  1 ≤ info.raw.channels ∧ info.raw.channels ≤ 64 ∧
  1 ≤ info.raw.rate ∧ info.raw.rate ≤ 192000

instance (info : spa_audio_info) : Decidable (spec_accepts_format info) := by
  unfold spec_accepts_format
  exact inferInstance

/-- Spec-side sample width in bytes, following the words of the
specification: determined by the encoding of the accepted format, not
hard-coded. Declared to be compared with the frame computation of
impl_node_process, which uses sizeof(float) for every encoding. -/
def spec_sample_width (encoding : Nat) : Nat :=
  if encoding = SPA_AUDIO_FORMAT_S16 then 2
  else if encoding = SPA_AUDIO_FORMAT_F32 ∨ encoding = SPA_AUDIO_FORMAT_F32P then 4
  else 4

/-- A freshly initialised, unconfigured node state (all fields zeroed
by null_state_init). -/
def state0 : null_state :=
  { have_format := false, current_format := zero_audio_info, io := none,
    rate_match := none, frame_count := 0, buffer_count := 0, started := false }

/-- A stereo 48 kHz planar-float descriptor (the enumeration default,
as a full spa_audio_info). -/
def fmt_stereo_f32 : spa_audio_info :=
  { media_type := SPA_MEDIA_TYPE_audio, media_subtype := SPA_MEDIA_SUBTYPE_raw,
    raw := { format := SPA_AUDIO_FORMAT_F32P, channels := 2, rate := 48000 } }

/-- A buffer carrying a 4096-byte chunk. -/
def buf4096 : spa_buffer := { data0 := { chunk := some { size := 4096 } } }

/-- A buffer-queue area with one bound buffer and current identifier 0. -/
def area_one_buffer : spa_io_buffers :=
  { status := 0, buffer_id := 0, buffers := [some buf4096] }

/-- A started node configured with fmt_stereo_f32 and bound to
area_one_buffer. -/
def state_running : null_state :=
  { have_format := true, current_format := fmt_stereo_f32,
    io := some area_one_buffer, rate_match := none,
    frame_count := 0, buffer_count := 0, started := true }

/-- A mono signed-16-bit descriptor, whose spec-side sample width (2)
differs from the hard-coded 4 of the implementation. -/
def fmt_mono_s16 : spa_audio_info :=
  { media_type := SPA_MEDIA_TYPE_audio, media_subtype := SPA_MEDIA_SUBTYPE_raw,
    raw := { format := SPA_AUDIO_FORMAT_S16, channels := 1, rate := 48000 } }

/-- A buffer carrying a 2-byte chunk: one mono S16 frame. -/
def buf2 : spa_buffer := { data0 := { chunk := some { size := 2 } } }

/-- A buffer-queue area bound to buf2 with current identifier 0. -/
def area_tiny : spa_io_buffers :=
  { status := 0, buffer_id := 0, buffers := [some buf2] }

/-- A started node configured with fmt_mono_s16 and bound to
area_tiny. -/
def state_s16 : null_state :=
  { have_format := true, current_format := fmt_mono_s16,
    io := some area_tiny, rate_match := none,
    frame_count := 0, buffer_count := 0, started := true }

/-- A buffer-queue area whose current identifier 20 is out of range
(MAX_BUFFERS is 16) yet not the INVALID sentinel. -/
def area_bad_id : spa_io_buffers :=
  { status := 0, buffer_id := 20, buffers := [some buf4096] }

/-- A started, configured node bound to area_bad_id. -/
def state_bad_id : null_state :=
  { have_format := true, current_format := fmt_stereo_f32,
    io := some area_bad_id, rate_match := none,
    frame_count := 7, buffer_count := 3, started := true }

/-- C1 (counterexample): the claim computes the frame increment with a
sample width determined by the accepted encoding. At a started node
holding a mono S16 format and a 2-byte chunk, the spec-side computation
S / (C * W) with W = spec_sample_width S16 = 2 predicts an increment of
1 frame, but one call to process leaves frame_count at 0: the code
divides by a hard-coded 4 bytes (sizeof(float)). -/
theorem C1_spec_width_counterexample :
    (impl_node_process state_s16).2.frame_count ≠
      state_s16.frame_count +
        2 / (state_s16.current_format.raw.channels *
             spec_sample_width state_s16.current_format.raw.format) := by
  decide

/-- C1 (amended): for every started, format-configured node with a
bound buffer-queue area whose current buffer identifier is a valid
index resolving to a buffer carrying a chunk of S bytes, under an
accepted format with C channels, one call to process increases
frame_count by exactly S / (C * 4) — the sample width is hard-coded to
4 bytes (sizeof(float)) regardless of the encoding — increases
buffer_count by exactly 1 (absent uint64 wrap), sets the identifier to
the INVALID sentinel and returns Ok. -/
theorem C1_process_consumes_buffer
    (s : null_state) (area : spa_io_buffers) (buf : spa_buffer) (S : Nat)
    (hs : s.started = true) (hf : s.have_format = true)
    (hio : s.io = some area)
    (hk : area.buffer_id < MAX_BUFFERS)
    (hb : area.buffers.getD area.buffer_id none = some buf)
    (hc : buf.data0.chunk = some { size := S })
    (hw1 : s.frame_count + S / (s.current_format.raw.channels * 4) < UINT64_MOD)
    (hw2 : s.buffer_count + 1 < UINT64_MOD) :
    impl_node_process s =
      (SPA_STATUS_OK,
        { s with
            frame_count := s.frame_count + S / (s.current_format.raw.channels * 4),
            buffer_count := s.buffer_count + 1,
            io := some { area with buffer_id := SPA_ID_INVALID } }) := by
  have hne : area.buffer_id ≠ SPA_ID_INVALID := by
    intro h
    rw [h] at hk
    revert hk
    decide
  have hge : ¬ area.buffer_id ≥ MAX_BUFFERS := by omega
  have hb2 : (area.buffers[area.buffer_id]?).getD none = some buf := by
    simpa using hb
  simp [impl_node_process, hs, hf, hio, hne, hge, hb2, hc,
        Nat.mod_eq_of_lt hw1, Nat.mod_eq_of_lt hw2]

/-- C1 (witness): the amended theorem applied to the concrete running
stereo-float node: a 4096-byte chunk yields 4096 / (2 * 4) = 512
frames. -/
theorem C1_process_consumes_buffer_witness :
    impl_node_process state_running =
      (SPA_STATUS_OK,
        { state_running with
            frame_count := state_running.frame_count +
              4096 / (state_running.current_format.raw.channels * 4),
            buffer_count := state_running.buffer_count + 1,
            io := some { area_one_buffer with buffer_id := SPA_ID_INVALID } }) :=
  C1_process_consumes_buffer state_running area_one_buffer buf4096 4096
    rfl rfl rfl (by decide) (by decide) (by decide) (by decide) (by decide)

/-- C2 (counterexample): the claim says clearing the format forces
started to false for every prior state. At the concrete running state
(started = true), setting the Format parameter to null leaves started
true: the code only clears have_format and zeroes the stored format. -/
theorem C2_clear_format_counterexample :
    ¬ ((impl_node_set_param state_running SPA_PARAM_Format none).2.started = false) := by
  decide

/-- C2 (amended): for every prior state, setting the Format parameter
to null succeeds, clears the stored format (have_format becomes false
and the format is zeroed) and leaves the started flag unchanged. -/
theorem C2_clear_format
    (s : null_state) :
    impl_node_set_param s SPA_PARAM_Format none =
      (0, { s with have_format := false, current_format := zero_audio_info }) := by
  simp [impl_node_set_param]

/-- C3: impl_node_set_param accepts a format descriptor iff its media
kind is raw audio, its channel count is in [1,64] and its sample rate
is in [1,192000]; on rejection it returns -EINVAL with the whole state
(stored format, have_format, started) unchanged, and on acceptance it
stores the descriptor and sets have_format. -/
theorem C3_validate_iff
    (s : null_state) (info : spa_audio_info) :
    ((impl_node_set_param s SPA_PARAM_Format (some info)).1 = 0 ↔ spec_accepts_format info)
    ∧ (¬ spec_accepts_format info →
        impl_node_set_param s SPA_PARAM_Format (some info) = (-EINVAL, s))
    ∧ (spec_accepts_format info →
        impl_node_set_param s SPA_PARAM_Format (some info) =
          (0, { s with current_format := info, have_format := true })) := by
  unfold spec_accepts_format
  unfold impl_node_set_param
  rw [if_pos rfl]
  simp only []
  split_ifs with h1 h2 h3
  · refine ⟨⟨fun h0 => ?_, fun hv => ?_⟩, fun _ => rfl, fun hv => ?_⟩
    · simp [EINVAL] at h0
    · obtain ⟨hmt, hms, -, -, -, -⟩ := hv
      rcases h1 with h | h
      · exact absurd hmt h
      · exact absurd hms h
    · obtain ⟨hmt, hms, -, -, -, -⟩ := hv
      rcases h1 with h | h
      · exact absurd hmt h
      · exact absurd hms h
  · refine ⟨⟨fun h0 => ?_, fun hv => ?_⟩, fun _ => rfl, fun hv => ?_⟩
    · simp [EINVAL] at h0
    · obtain ⟨-, -, hcl, hcu, -, -⟩ := hv
      rcases h2 with h | h <;> omega
    · obtain ⟨-, -, hcl, hcu, -, -⟩ := hv
      rcases h2 with h | h <;> omega
  · refine ⟨⟨fun h0 => ?_, fun hv => ?_⟩, fun _ => rfl, fun hv => ?_⟩
    · simp [EINVAL] at h0
    · obtain ⟨-, -, -, -, hrl, hru⟩ := hv
      rcases h3 with h | h <;> omega
    · obtain ⟨-, -, -, -, hrl, hru⟩ := hv
      rcases h3 with h | h <;> omega
  · push_neg at h1 h2 h3
    have hv : info.media_type = SPA_MEDIA_TYPE_audio ∧
        info.media_subtype = SPA_MEDIA_SUBTYPE_raw ∧
        1 ≤ info.raw.channels ∧ info.raw.channels ≤ 64 ∧
        1 ≤ info.raw.rate ∧ info.raw.rate ≤ 192000 :=
      ⟨h1.1, h1.2, by omega, by omega, by omega, by omega⟩
    exact ⟨⟨fun _ => hv, fun _ => rfl⟩, fun hn => absurd hv hn, fun _ => rfl⟩

/-- C3 (witness): the theorem applied to the unconfigured node and the
stereo-float descriptor, whose acceptance condition holds, yields the
accepting result. -/
theorem C3_validate_iff_witness :
    impl_node_set_param state0 SPA_PARAM_Format (some fmt_stereo_f32) =
      (0, { state0 with current_format := fmt_stereo_f32, have_format := true }) :=
  (C3_validate_iff state0 fmt_stereo_f32).2.2 (by decide)

/-- C4: when the node is not started, or no format is accepted, or the
buffer-queue binding is absent, or the bound area holds the INVALID
identifier, process returns Ok and leaves the entire state — in
particular frame_count and buffer_count — unchanged. -/
theorem C4_process_noop
    (s : null_state)
    (h : s.started = false ∨ s.have_format = false ∨ s.io = none ∨
         ∃ area, s.io = some area ∧ area.buffer_id = SPA_ID_INVALID) :
    impl_node_process s = (SPA_STATUS_OK, s) := by
  rcases h with h | h | h | ⟨area, hio, hinv⟩
  · simp [impl_node_process, h]
  · simp [impl_node_process, h]
  · simp [impl_node_process, h]
  · simp [impl_node_process, hio, hinv]

/-- C4 (witness): the theorem applied to the freshly initialised state,
which is not started. -/
theorem C4_process_noop_witness :
    impl_node_process state0 = (SPA_STATUS_OK, state0) :=
  C4_process_noop state0 (Or.inl rfl)

/-- C5: sending Start fails with -EIO_errno when no format is accepted,
leaving the state (in particular started) unchanged; when a format is
accepted it succeeds and sets started to true. -/
theorem C5_start_command
    (s : null_state) :
    (s.have_format = false →
      impl_node_send_command s SPA_NODE_COMMAND_Start = (-EIO_errno, s)) ∧
    (s.have_format = true →
      impl_node_send_command s SPA_NODE_COMMAND_Start = (0, { s with started := true })) := by
  constructor <;> intro h <;> simp [impl_node_send_command, h]

/-- C5 (witness): Start on the unconfigured initial state fails with
-EIO_errno and changes nothing. -/
theorem C5_start_command_witness :
    impl_node_send_command state0 SPA_NODE_COMMAND_Start = (-EIO_errno, state0) :=
  (C5_start_command state0).1 rfl

/-- C6: on a started, configured node whose bound area carries an
identifier that is neither INVALID nor a valid index (at least
MAX_BUFFERS), process resets the identifier to INVALID, returns Ok,
and leaves frame_count and buffer_count unchanged. -/
theorem C6_out_of_range_recovery
    (s : null_state) (area : spa_io_buffers)
    (hs : s.started = true) (hf : s.have_format = true) (hio : s.io = some area)
    (hne : area.buffer_id ≠ SPA_ID_INVALID) (hge : area.buffer_id ≥ MAX_BUFFERS) :
    impl_node_process s =
      (SPA_STATUS_OK, { s with io := some { area with buffer_id := SPA_ID_INVALID } }) ∧
    (impl_node_process s).2.frame_count = s.frame_count ∧
    (impl_node_process s).2.buffer_count = s.buffer_count := by
  have he : impl_node_process s =
      (SPA_STATUS_OK, { s with io := some { area with buffer_id := SPA_ID_INVALID } }) := by
    simp [impl_node_process, hs, hf, hio, hne, hge]
  exact ⟨he, by rw [he], by rw [he]⟩

/-- C6 (witness): the theorem applied to the concrete node whose bound
area carries identifier 20. -/
theorem C6_out_of_range_recovery_witness :
    impl_node_process state_bad_id =
      (SPA_STATUS_OK, { state_bad_id with io := some { area_bad_id with buffer_id := SPA_ID_INVALID } }) ∧
    (impl_node_process state_bad_id).2.frame_count = state_bad_id.frame_count ∧
    (impl_node_process state_bad_id).2.buffer_count = state_bad_id.buffer_count :=
  C6_out_of_range_recovery state_bad_id area_bad_id rfl rfl rfl (by decide) (by decide)

/-- C7: for every I/O kind other than SPA_IO_Buffers and
SPA_IO_RateMatch, impl_node_set_io fails with -ENOENT (the value the
code designates for unsupported I/O area kinds) and leaves the whole
state, in particular both stored binding pointers, unchanged. -/
theorem C7_set_io_unknown_kind
    (s : null_state) (id : Nat)
    (db : Option spa_io_buffers) (dr : Option spa_io_rate_match) (size : Nat)
    (h1 : id ≠ SPA_IO_Buffers) (h2 : id ≠ SPA_IO_RateMatch) :
    impl_node_set_io s id db dr size = (-ENOENT, s) := by
  simp [impl_node_set_io, h1, h2]

/-- C7 (witness): binding I/O kind 3 (neither Buffers nor RateMatch)
fails and changes nothing. -/
theorem C7_set_io_unknown_kind_witness :
    impl_node_set_io state0 3 none none 200 = (-ENOENT, state0) :=
  C7_set_io_unknown_kind state0 3 none none 200 (by decide) (by decide)

/-- C8: Format enumeration with start index 0 and a positive maximum
yields exactly the one default descriptor and returns 1; with start
index at least 1 it yields nothing and returns 0; in both cases the
node state is returned unchanged, so repeated calls with the same
arguments give the same result. -/
theorem C8_enum_format
    (s : null_state) (n k : Nat) (hn : 1 ≤ n) (hk : 1 ≤ k) :
    impl_node_enum_params s SPA_PARAM_Format 0 n = (1, [default_enum_format], s) ∧
    impl_node_enum_params s SPA_PARAM_Format k n = (0, [], s) := by
  have hn0 : n ≠ 0 := by omega
  have hk0 : k ≠ 0 := by omega
  constructor
  · simp [impl_node_enum_params, hn0, Nat.pos_of_ne_zero hn0]
  · simp [impl_node_enum_params, hn0, hk0]

/-- C8 (witness): the theorem applied at start indices 0 and 1 with
maximum 1 on the initial state. -/
theorem C8_enum_format_witness :
    impl_node_enum_params state0 SPA_PARAM_Format 0 1 = (1, [default_enum_format], state0) ∧
    impl_node_enum_params state0 SPA_PARAM_Format 1 1 = (0, [], state0) :=
  C8_enum_format state0 1 1 (by decide) (by decide)

/-- C9: no control-plane operation touches the statistics counters:
clearing the format (Format parameter set to null), any set_param call,
any command, any I/O binding call and any parameter enumeration leave
frame_count and buffer_count exactly as they were, so the telemetry
persists across unconfiguration and reconfiguration. -/
theorem C9_counters_persist
    (s : null_state) (pid : Nat) (param : Option spa_audio_info)
    (cmd : Nat) (iid : Nat) (db : Option spa_io_buffers)
    (dr : Option spa_io_rate_match) (size : Nat) (eid estart enum : Nat) :
    ((impl_node_set_param s SPA_PARAM_Format none).2.frame_count = s.frame_count ∧
     (impl_node_set_param s SPA_PARAM_Format none).2.buffer_count = s.buffer_count) ∧
    ((impl_node_set_param s pid param).2.frame_count = s.frame_count ∧
     (impl_node_set_param s pid param).2.buffer_count = s.buffer_count) ∧
    ((impl_node_send_command s cmd).2.frame_count = s.frame_count ∧
     (impl_node_send_command s cmd).2.buffer_count = s.buffer_count) ∧
    ((impl_node_set_io s iid db dr size).2.frame_count = s.frame_count ∧
     (impl_node_set_io s iid db dr size).2.buffer_count = s.buffer_count) ∧
    ((impl_node_enum_params s eid estart enum).2.2.frame_count = s.frame_count ∧
     (impl_node_enum_params s eid estart enum).2.2.buffer_count = s.buffer_count) := by
  refine ⟨⟨rfl, rfl⟩, ?_, ?_, ?_, ?_⟩
  · unfold impl_node_set_param
    split_ifs
    · cases param with
      | none => exact ⟨rfl, rfl⟩
      | some info =>
        simp only []
        split_ifs <;> exact ⟨rfl, rfl⟩
    · exact ⟨rfl, rfl⟩
  · unfold impl_node_send_command
    split_ifs <;> exact ⟨rfl, rfl⟩
  · unfold impl_node_set_io
    split_ifs <;> exact ⟨rfl, rfl⟩
  · unfold impl_node_enum_params
    split_ifs <;> exact ⟨rfl, rfl⟩

/-- C10: for every parameter kind and start index, parameter
enumeration with maximum count 0 fails with -EINVAL, emits no
descriptor, and returns the node state unchanged. -/
theorem C10_enum_zero_count
    (s : null_state) (id start : Nat) :
    impl_node_enum_params s id start 0 = (-EINVAL, [], s) := by
  simp [impl_node_enum_params]

end NullSink
